import Mathlib

/-!
Verification of the RayNeo X2 ring BLE GATT client (`main.py`,
`run_ring_oscquery.py`) against its natural-language specification.

The Python code is shallowly embedded: GATT services/characteristics become
Lean structures; each control-flow phase of `run_hid_client` becomes a pure
function from the enumerated tree (plus a success oracle for fallible
transport operations) to the list of transport operations it attempts;
the background loops become trace-producing recursive functions; and the
battery change-reporting pattern becomes an explicit state-transition
function folded over read sequences.
-/

namespace RingBLE

/-- A GATT characteristic as enumerated by the transport
(bleak `BleakGATTCharacteristic`): uuid string, handle, property strings
such as "read", "write", "write-without-response", "notify", "indicate",
and descriptor uuids. -/
structure GChar where
  uuid : String
  handle : Nat
  props : List String
  descriptors : List String
  deriving Repr, DecidableEq

/-- A GATT service with its characteristics (bleak `BleakGATTService`). -/
structure GService where
  uuid : String
  handle : Nat
  characteristics : List GChar
  deriving Repr, DecidableEq

/-- `DEFAULT_DEVICE_ADDRESS` in `main.py`. -/
def DEFAULT_DEVICE_ADDRESS : String := "B0:B3:53:EB:40:8D"

/-- `HID_SERVICE_UUID`. -/
def HID_SERVICE_UUID : String := "00001812-0000-1000-8000-00805f9b34fb"

/-- `HID_CHAR_UUIDS["information"]`. -/
def HID_INFORMATION_UUID : String := "00002a4a-0000-1000-8000-00805f9b34fb"

/-- `HID_CHAR_UUIDS["report_map"]`. -/
def HID_REPORT_MAP_UUID : String := "00002a4b-0000-1000-8000-00805f9b34fb"

/-- `HID_CHAR_UUIDS["control_point"]`. -/
def HID_CONTROL_POINT_UUID : String := "00002a4c-0000-1000-8000-00805f9b34fb"

/-- `HID_CHAR_UUIDS["report"]`. -/
def HID_REPORT_UUID : String := "00002a4d-0000-1000-8000-00805f9b34fb"

/-- `BATTERY_SERVICE_UUID`. -/
def BATTERY_SERVICE_UUID : String := "0000180f-0000-1000-8000-00805f9b34fb"

/-- `BATTERY_LEVEL_CHAR_UUID`. -/
def BATTERY_LEVEL_CHAR_UUID : String := "00002a19-0000-1000-8000-00805f9b34fb"

/-- `ENVIRONMENTAL_SENSING_SERVICE_UUID`. -/
def ENV_SENSING_SERVICE_UUID : String := "0000181a-0000-1000-8000-00805f9b34fb"

/-- `VENDOR_CHAR_AE41_UUID`. -/
def VENDOR_CHAR_AE41_UUID : String := "0000ae41-0000-1000-8000-00805f9b34fb"

/-- `VENDOR_CHAR_FFF2_UUID`. -/
def VENDOR_CHAR_FFF2_UUID : String := "0000fff2-0000-1000-8000-00805f9b34fb"

/-- Python `s.lower()` as it acts on uuid/ascii strings: per-character
lowercasing. -/
def lowerStr (s : String) : String := String.mk (s.data.map Char.toLower)

/-- Python `s.lower().replace("-", "")` used for uuid comparison; since the
pattern is the single character "-", the `replace` removes every dash. -/
def normUuid (s : String) : String :=
  String.mk ((lowerStr s).data.filter (fun c => c != '-'))

/-- Python `c in s` for a one-character needle. -/
def containsChar (s : String) (c : Char) : Bool := s.data.any (fun a => a == c)

/-- Python `s.startswith(p)`. -/
def startsWithStr (s p : String) : Bool := s.data.take p.length == p.data

/-- `"read" in (char.properties or [])`. -/
def isReadable (c : GChar) : Bool := c.props.contains "read"

/-- `char.properties and ("notify" in char.properties or "indicate" in char.properties)`:
the Python truthiness test on the (possibly empty) property list, then the
membership tests. -/
def isNotifiable (c : GChar) : Bool :=
  !c.props.isEmpty && (c.props.contains "notify" || c.props.contains "indicate")

/-- `"write" in props or "write-without-response" in props`
(HID control point writability test, line 281). -/
def isWritableCp (c : GChar) : Bool :=
  c.props.contains "write" || c.props.contains "write-without-response"

/-- Vendor-write eligibility (line 350): NOT
(`"write-without-response" not in props and "write" not in props`). -/
def isWritableVendor (c : GChar) : Bool :=
  c.props.contains "write-without-response" || c.props.contains "write"

/-- First service whose lowercased uuid equals the HID service uuid
(`for service in client.services: if service.uuid and service.uuid.lower() == HID_SERVICE_UUID`,
lines 262-265; the empty uuid is falsy but also never equals the HID uuid). -/
def findHidService (tree : List GService) : Option GService :=
  tree.find? (fun s => lowerStr s.uuid == HID_SERVICE_UUID)

/-- `_find_battery_char` (lines 77-86): first characteristic, across services
whose normalized uuid is the battery-service uuid, whose normalized uuid is
the battery-level uuid and whose properties include "read". -/
def findBatteryChar (tree : List GService) : Option GChar :=
  tree.findSome? (fun s =>
    if normUuid s.uuid == normUuid BATTERY_SERVICE_UUID then
      s.characteristics.find? (fun c =>
        normUuid c.uuid == normUuid BATTERY_LEVEL_CHAR_UUID && isReadable c)
    else none)

/-- The classification loop over `hid_service.characteristics`
(lines 270-276) reassigns `report_char` / `control_point_char` on every
uuid match, so the LAST matching characteristic wins. -/
def lastCharMatching (s : GService) (u : String) : Option GChar :=
  s.characteristics.reverse.find? (fun c => lowerStr c.uuid == u)

/-- `_pick_keepalive_char` (lines 100-117): battery characteristic if mode
is "battery" and one exists; else the first readable characteristic that is
not the HID control point; else the battery characteristic (possibly none). -/
def pickKeepaliveChar (tree : List GService) (batteryChar : Option GChar)
    (mode : String) : Option GChar :=
  if mode == "battery" && batteryChar.isSome then batteryChar
  else
    match tree.findSome? (fun s =>
      s.characteristics.find? (fun c =>
        isReadable c && lowerStr c.uuid != HID_CONTROL_POINT_UUID)) with
    | some c => some c
    | none => batteryChar

/-- Clamp a read byte to the 0-100 battery range:
`min(100, max(0, int(value[0])))`. -/
def clampBattery (b : Nat) : Nat := min 100 (max 0 b)

/-! ### Battery change reporting (`BatteryState`) -/

/-- The shared change-only reporting pattern
`if level != battery_state.get("last"): print(f"Battery: {level}%"); battery_state["last"] = level`
appearing verbatim in `_battery_poll_loop` (170-172), `_keepalive_loop`
(140-142) and `_battery_notification_handler` (392-394). `last = none`
models the initial `{"last": None}`; the returned list holds the battery
percentages printed by this step. -/
def batteryReportStep (last : Option Nat) (level : Nat) : Option Nat × List Nat :=
  if some level ≠ last then (some level, [level]) else (last, [])

/-- `_read_battery_level` (lines 89-97): clamp the first byte of a
successful, non-empty read; `none` for a failed read, a `None` value or an
empty value. -/
def readBatteryLevel (readResult : Option (List Nat)) : Option Nat :=
  match readResult with
  | some v => if 1 ≤ v.length then some (clampBattery (v.headD 0)) else none
  | none => none

/-- Body of `_battery_poll_loop` after the read (lines 168-174), without the
`on_battery_updated` callback (invoked on every successful read, reported
or not, and irrelevant to the reporting state). -/
def batteryPollHandle (last : Option Nat) (level : Option Nat) :
    Option Nat × List Nat :=
  match level with
  | some l => batteryReportStep last l
  | none => (last, [])

/-- `_battery_notification_handler` (lines 389-396):
`if data is not None and len(data) >= 1` then clamp `data[0]` and run the
change-only reporting step. -/
def batteryNotificationHandle (last : Option Nat) (data : List Nat) :
    Option Nat × List Nat :=
  if 1 ≤ data.length then batteryReportStep last (clampBattery (data.headD 0))
  else (last, [])

/-- Result handling of one `_keepalive_loop` iteration (lines 136-146).
`batteryState = none` models the Python `battery_state` argument being
`None`; `some last` models the dict `{"last": last}`.  `data = none`
models a failed read (the surrounding `except` swallows it).  Returns the
new `battery_state` argument value and the printed battery percentages. -/
def keepaliveHandle (batteryState : Option (Option Nat)) (logBattery : Bool)
    (data : Option (List Nat)) : Option (Option Nat) × List Nat :=
  match data with
  | some d =>
    if 1 ≤ d.length then
      let level := clampBattery (d.headD 0)
      match batteryState with
      | some last =>
          let r := batteryReportStep last level
          (some r.1, r.2)
      | none => (none, if logBattery then [level] else [])
    else (batteryState, [])
  | none => (batteryState, [])

/-- `run_hid_client` line 436: the `battery_state` argument passed to the
keepalive task is the shared dict when a battery characteristic exists and
`None` otherwise (`battery_state=battery_state if battery_char else None`). -/
def keepaliveBatteryStateArg (tree : List GService) (last : Option Nat) :
    Option (Option Nat) :=
  if (findBatteryChar tree).isSome then some last else none

/-- `run_hid_client` line 423:
`log_battery_on_keepalive = keepalive_mode == "battery" and battery_char is not None`. -/
def logBatteryOnKeepalive (tree : List GService) (mode : String) : Bool :=
  mode == "battery" && (findBatteryChar tree).isSome

/-- Battery percentages printed by one keepalive iteration under the actual
`run_hid_client` wiring of `battery_state` and `log_battery`. -/
def keepaliveIterReports (tree : List GService) (mode : String)
    (last : Option Nat) (data : Option (List Nat)) : List Nat :=
  (keepaliveHandle (keepaliveBatteryStateArg tree last)
    (logBatteryOnKeepalive tree mode) data).2

/-- Fold a state-and-report step over a list of inputs, concatenating the
reports, the way a loop body runs once per iteration. -/
def foldReports {σ α : Type} (f : σ → α → σ × List Nat) :
    σ → List α → σ × List Nat
  | s, [] => (s, [])
  | s, x :: xs =>
    let r := f s x
    let rest := foldReports f r.1 xs
    (rest.1, r.2 ++ rest.2)

/-- One `_battery_poll_loop` iteration as a function of the raw read result
(read then handle). -/
def pollStep (last : Option Nat) (readResult : Option (List Nat)) :
    Option Nat × List Nat :=
  batteryPollHandle last (readBatteryLevel readResult)

/-- One `_keepalive_loop` iteration in battery role
(`battery_state` is the shared dict, i.e. not `None`), as a transition on
the stored last value. -/
def kaStepB (logBattery : Bool) (last : Option Nat) (data : Option (List Nat)) :
    Option Nat × List Nat :=
  ((keepaliveHandle (some last) logBattery data).1.getD last,
   (keepaliveHandle (some last) logBattery data).2)

/-! ### Background loop gating (`_keepalive_loop` / `_battery_poll_loop`) -/

/-- Events of a background loop, stamped with the index of the
`is_connected()` sample they belong to. -/
inductive LoopEv where
  | checkTop (t : Nat) (alive : Bool)
  | sleepEv (t : Nat)
  | checkAfterSleep (t : Nat) (alive : Bool)
  | readAt (t : Nat)
  deriving Repr, DecidableEq

/-- The common gating skeleton of `_keepalive_loop` (lines 130-136) and
`_battery_poll_loop` (lines 163-167):
`while is_connected() and interval_sec > 0: sleep; if not is_connected(): break; read`.
`alive t` is the value of the t-th `is_connected()` sample, `ivPos` is
`interval_sec > 0`, `fuel` bounds the number of iterations (cancellation
during the sleep only truncates the trace, removing reads).  The read's
outcome and result handling do not affect the gating: a read failure is
caught and the loop continues. -/
def loopTrace (alive : Nat → Bool) (ivPos : Bool) : Nat → Nat → List LoopEv
  | 0, _ => []
  | fuel + 1, t =>
    if alive t then
      if ivPos then
        .checkTop t true :: .sleepEv t ::
          (if alive (t + 1) then
            .checkAfterSleep (t + 1) true :: .readAt (t + 1) ::
              loopTrace alive ivPos fuel (t + 2)
          else [.checkAfterSleep (t + 1) false])
      else [.checkTop t true]
    else [.checkTop t false]

/-- `_keepalive_loop` gating trace (its `while`/post-sleep structure,
lines 130-136, is the common skeleton). -/
def keepaliveLoopTrace (alive : Nat → Bool) (ivPos : Bool) (fuel t : Nat) :
    List LoopEv :=
  loopTrace alive ivPos fuel t

/-- `_battery_poll_loop` gating trace (its `while`/post-sleep structure,
lines 163-167, is the common skeleton). -/
def batteryPollLoopTrace (alive : Nat → Bool) (ivPos : Bool) (fuel t : Nat) :
    List LoopEv :=
  loopTrace alive ivPos fuel t

/-! ### Session controller: operations attempted after a successful connect -/

/-- Caller-facing configuration of `run_hid_client` relevant to the
post-connect phase.  `writeAe41`/`writeFff2` hold the decoded bytes of
`write_ae41_hex`/`write_fff2_hex`; `none` models an absent (or empty, hence
falsy) hex string. -/
structure SessionCfg where
  gattDump : Bool
  writeAe41 : Option (List Nat)
  writeFff2 : Option (List Nat)
  deriving Repr, DecidableEq

/-- A transport/file operation attempted by `run_hid_client` between a
successful connect and the Connected idle wait. -/
inductive OpDesc where
  | dumpTree
  | subReport (uuid : String)
  | writeControlPoint (uuid : String) (withResponse : Bool)
  | readChar (uuid : String)
  | subChar (uuid : String)
  | writeVendor (uuid : String) (payload : List Nat) (withResponse : Bool)
  | subBattery (uuid : String)
  deriving Repr, DecidableEq

/-- Optional GATT dump (lines 249-256), wrapped in its own try/except. -/
def dumpOps (cfg : SessionCfg) : List OpDesc :=
  if cfg.gattDump then [.dumpTree] else []

/-- HID-path one-shot reads (lines 288-295): every readable characteristic
of the HID service whose lowercased uuid is information or report-map, each
read wrapped in its own try/except. -/
def hidReadOps (hid : GService) : List OpDesc :=
  (hid.characteristics.filter (fun c =>
    isReadable c &&
      (lowerStr c.uuid == HID_INFORMATION_UUID ||
       lowerStr c.uuid == HID_REPORT_MAP_UUID))).map
    (fun c => OpDesc.readChar c.uuid)

/-- Environmental Sensing discovery on the HID path (lines 296-316): for
every service with the 0x181A uuid, subscribe each notifiable characteristic
and read each readable one, every call in its own try/except. -/
def envSensingOps (tree : List GService) : List OpDesc :=
  (tree.filter (fun s =>
      normUuid s.uuid == normUuid ENV_SENSING_SERVICE_UUID)).flatMap
    (fun s => s.characteristics.flatMap (fun c =>
      (if isNotifiable c then [OpDesc.subChar c.uuid] else []) ++
      (if isReadable c then [OpDesc.readChar c.uuid] else [])))

/-- Vendor-path enumeration (lines 321-337): subscribe every characteristic
across all services whose properties include notify or indicate, each
`start_notify` in its own try/except. -/
def vendorSubOps (tree : List GService) : List OpDesc :=
  tree.flatMap (fun s =>
    (s.characteristics.filter isNotifiable).map (fun c => OpDesc.subChar c.uuid))

/-- One configured vendor write (lines 343-361): for EVERY service, the
first characteristic with the target normalized uuid and a write capability
is written (the `break` exits only the inner characteristic loop), each
write in its own try/except. -/
def vendorWriteOpsFor (payload? : Option (List Nat)) (charUuidNorm : String)
    (tree : List GService) : List OpDesc :=
  match payload? with
  | none => []
  | some payload =>
    tree.flatMap (fun s =>
      match s.characteristics.find? (fun c =>
          normUuid c.uuid == charUuidNorm && isWritableVendor c) with
      | some c => [OpDesc.writeVendor c.uuid payload (c.props.contains "write")]
      | none => [])

/-- Both configured vendor writes (lines 339-342), in source order
(0xAE41 first, then 0xFFF2). -/
def vendorWriteOps (cfg : SessionCfg) (tree : List GService) : List OpDesc :=
  vendorWriteOpsFor cfg.writeAe41 (normUuid VENDOR_CHAR_AE41_UUID) tree ++
  vendorWriteOpsFor cfg.writeFff2 (normUuid VENDOR_CHAR_FFF2_UUID) tree

/-- `vendor_uuids` (lines 363 and 403). -/
def VENDOR_SERVICE_UUID_STEMS : List String :=
  ["0000ae40", "0000ae00", "0000fff0", "0000181a"]

/-- `any(suuid.startswith(u) for u in vendor_uuids)` on the normalized
service uuid. -/
def isVendorService (s : GService) : Bool :=
  VENDOR_SERVICE_UUID_STEMS.any (fun u => startsWithStr (normUuid s.uuid) u)

/-- Vendor-path reads (lines 362-375): every readable characteristic of
every vendor/sensor service, each read in its own try/except. -/
def vendorReadOps (tree : List GService) : List OpDesc :=
  (tree.filter isVendorService).flatMap (fun s =>
    (s.characteristics.filter isReadable).map (fun c => OpDesc.readChar c.uuid))

/-- Battery section (lines 377-420): when `_find_battery_char` succeeds,
one initial read (failure swallowed inside `_read_battery_level`) and, if
the characteristic is notifiable, one `start_notify` with the dedicated
battery handler, in its own try/except.  Otherwise the vendor fallback
reads the first readable characteristic of the FIRST vendor/sensor service
(both loops `break` unconditionally), failure swallowed. -/
def batteryOps (tree : List GService) : List OpDesc :=
  match findBatteryChar tree with
  | some bc =>
      [.readChar bc.uuid] ++ (if isNotifiable bc then [.subBattery bc.uuid] else [])
  | none =>
      match tree.find? isVendorService with
      | some s =>
          match s.characteristics.find? isReadable with
          | some c => [.readChar c.uuid]
          | none => []
      | none => []

/-- The (at most one) report subscription (lines 278-280): issued when the
last report-uuid characteristic exists and
`"notify" in report_char.properties or "indicate" in report_char.properties`. -/
def hidSubReportOps (hid : GService) : List OpDesc :=
  match lastCharMatching hid HID_REPORT_UUID with
  | some rc =>
      if rc.props.contains "notify" || rc.props.contains "indicate" then
        [.subReport rc.uuid]
      else []
  | none => []

/-- The (at most one) control-point Exit-Suspend write (lines 281-287),
`response="write" in control_point_char.properties`. -/
def hidCpWriteOps (hid : GService) : List OpDesc :=
  match lastCharMatching hid HID_CONTROL_POINT_UUID with
  | some cp =>
      if isWritableCp cp then
        [.writeControlPoint cp.uuid (cp.props.contains "write")]
      else []
  | none => []

/-- Vendor-path (no HID service) operation sequence (lines 318-420): the
attempted operations do not depend on any operation's outcome, because
every one of them sits in its own try/except. -/
def vendorPathOps (tree : List GService) (cfg : SessionCfg) : List OpDesc :=
  dumpOps cfg ++ vendorSubOps tree ++ vendorWriteOps cfg tree ++
    vendorReadOps tree ++ batteryOps tree

/-- HID-path operation sequence (lines 267-316 then 377-420).  The report
subscription and the control-point write are NOT wrapped in any try/except,
so their failure raises out of `run_hid_client` (`.error` with the
operations attempted so far); everything after them is guarded. -/
def hidPathOps (oracle : Nat → Bool) (pre : List OpDesc) (hid : GService)
    (tree : List GService) : Except (List OpDesc) (List OpDesc) :=
  let sub1 := hidSubReportOps hid
  let ops1 := pre ++ sub1
  if !sub1.isEmpty && !oracle pre.length then .error ops1
  else
    let cpw := hidCpWriteOps hid
    let ops2 := ops1 ++ cpw
    if !cpw.isEmpty && !oracle ops1.length then .error ops2
    else .ok (ops2 ++ hidReadOps hid ++ envSensingOps tree ++ batteryOps tree)

/-- All operations `run_hid_client` attempts between a successful connect
and the Connected idle wait (lines 249-420).  `oracle k` is the success of
the k-th attempted operation.  Exactly two operations are NOT wrapped in
any try/except — the report subscription (line 279) and the control-point
write (lines 282-286) — so their failure aborts the session; every other
operation sits in its own try/except (or swallows internally), so its
failure affects only logging and never which operations follow. -/
def sessionOps (oracle : Nat → Bool) (tree : List GService) (cfg : SessionCfg) :
    Except (List OpDesc) (List OpDesc) :=
  match findHidService tree with
  | some hid => hidPathOps oracle (dumpOps cfg) hid tree
  | none => .ok (vendorPathOps tree cfg)

/-- Number of subscription attempts (`start_notify` calls, any handler)
issued for uuid `u` in an operation list. -/
def subAttempts (ops : List OpDesc) (u : String) : Nat :=
  (ops.filter (fun op =>
    match op with
    | .subChar v => v == u
    | .subBattery v => v == u
    | .subReport v => v == u
    | _ => false)).length

/-! ### Session teardown (lines 425-469) -/

/-- How the idle wait `while client.is_connected: await asyncio.sleep(1.0)`
ends: the loop condition turning false (disconnect detected) or a
`CancelledError` caught by the surrounding `except` (line 454). -/
inductive ExitPath where
  | normalDisconnect
  | cancelledWait
  deriving Repr, DecidableEq

/-- Teardown/return actions of the session controller tail. -/
inductive TAct where
  | cancelKeepalive
  | awaitKeepalive
  | cancelBatteryPoll
  | awaitBatteryPoll
  | ret
  deriving Repr, DecidableEq

/-- `keepalive_task` is started iff `keepalive_interval > 0 and keepalive_char`
(line 428). -/
def startedKeepalive (tree : List GService) (keepaliveIntervalPos : Bool)
    (mode : String) : Bool :=
  keepaliveIntervalPos && (pickKeepaliveChar tree (findBatteryChar tree) mode).isSome

/-- `battery_poll_task` is started iff
`battery_poll_interval > 0 and battery_char is not None` (line 440). -/
def startedBatteryPoll (tree : List GService) (batteryPollIntervalPos : Bool) : Bool :=
  batteryPollIntervalPos && (findBatteryChar tree).isSome

/-- The `finally:` block (lines 456-468): for each started task, `cancel()`
then `await` it (the `await` is wrapped in `except asyncio.CancelledError`,
and neither loop lets any other exception escape, so the join always
completes). -/
def teardownActions (ka bp : Bool) : List TAct :=
  (if ka then [.cancelKeepalive, .awaitKeepalive] else []) ++
  (if bp then [.cancelBatteryPoll, .awaitBatteryPoll] else [])

/-- The session controller tail (lines 451-469): whichever way the idle
wait ends, the `finally` block runs before control returns. -/
def sessionTailTrace (p : ExitPath) (ka bp : Bool) : List TAct :=
  match p with
  | .normalDisconnect => teardownActions ka bp ++ [.ret]
  | .cancelledWait => teardownActions ka bp ++ [.ret]

/-! ### Reconnect supervisor (`run_hid_client_with_reconnect`, lines 496-520) -/

/-- How one `run_hid_client` call ends, as seen by the supervisor's
except clauses: a normal return (this includes the device-not-found early
returns), or an exception of the given kind.  `otherError` is any exception
matching none of the explicit clauses (e.g. the `ValueError` raised by
`bytes.fromhex` on an invalid configured hex payload, line 345). -/
inductive SessionOutcome where
  | normalReturn
  | cancelledError
  | bleakError
  | timeoutError
  | osError
  | connectionError
  | keyboardInterrupt
  | otherError
  deriving Repr, DecidableEq

/-- What the supervisor loop does next. -/
inductive SupStep where
  | retryAfterDelay
  | exitRaise
  deriving Repr, DecidableEq

/-- One turn of the `while True` loop (lines 497-520):
`except asyncio.CancelledError: raise`;
`except (BleakError, asyncio.TimeoutError, OSError, ConnectionError)`:
sleep `reconnect_delay` then loop; `except KeyboardInterrupt: raise`;
`else`: sleep `reconnect_delay` then loop; any unmatched exception
propagates out of the loop. -/
def supervisorStep : SessionOutcome → SupStep
  | .cancelledError => .exitRaise
  | .bleakError => .retryAfterDelay
  | .timeoutError => .retryAfterDelay
  | .osError => .retryAfterDelay
  | .connectionError => .retryAfterDelay
  | .keyboardInterrupt => .exitRaise
  | .otherError => .exitRaise
  | .normalReturn => .retryAfterDelay

/-- Whether the supervisor reaches its (n+1)-th `run_hid_client` call,
given the outcome of each earlier call. -/
def attemptsSession (outcomes : Nat → SessionOutcome) : Nat → Bool
  | 0 => true
  | n + 1 =>
      attemptsSession outcomes n && (supervisorStep (outcomes n) == .retryAfterDelay)

/-- The target the n-th `run_hid_client` call receives: the loop body
always passes the captured `address_or_name`, unchanged (line 500). -/
def supervisorTarget (addressOrName : Option String) (_n : Nat) : Option String :=
  addressOrName

/-! ### OSCQuery notification bridge (`run_ring_oscquery.py`) -/

/-- `IDX_BYTE_12` in `run_ring_oscquery.py`. -/
def IDX_BYTE_12 : Nat := 12

/-- `REPORT_MIN_LEN_FOR_IMU`. -/
def REPORT_MIN_LEN_FOR_IMU : Nat := 12

/-- `IMU_ACCEL_SCALE = IMU_GYRO_SCALE = 1.0 / 16384.0` (exact in binary64,
modelled as the rational it denotes). -/
def IMU_SCALE : ℚ := 1 / 16384

/-- `_parse_int16_le` (lines 85-91): 0 when out of range, else the two
bytes at `offset` as a signed little-endian 16-bit value. -/
def parseInt16Le (data : List Nat) (offset : Nat) : Int :=
  if data.length < offset + 2 then 0
  else
    let v := data.getD offset 0 ||| (data.getD (offset + 1) 0 <<< 8)
    if 32768 ≤ v then (v : Int) - 65536 else (v : Int)

/-- Observable actions of the wrapper returned by
`_make_notification_wrapper`. -/
inductive WrapEv where
  | origHandlerCall (len : Nat)
  | imuUpdate (path : String) (v : ℚ)
  | skipPointer (len : Nat)
  | pointerUpdate (path : String) (v : Nat)
  deriving Repr, DecidableEq

/-- The wrapper body (lines 97-134): call the original handler first; when
the payload is long enough, parse and publish the six IMU fields (the whole
block in a try/except, and `_parse_int16_le` is internally range-guarded);
then either skip the pointer update (`len(data) <= IDX_BYTE_12`, early
return) or publish bytes 10/11/12 (updates in a try/except).  Python
indexing `data[i]` on the pointer path is modelled fallibly with `List.get?`
so that `none` would witness an uncaught `IndexError` escaping the wrapper. -/
def wrapperRun (data : List Nat) : Option (List WrapEv) :=
  let origEv : List WrapEv := [.origHandlerCall data.length]
  let imuEvs : List WrapEv :=
    if 0 < REPORT_MIN_LEN_FOR_IMU && REPORT_MIN_LEN_FOR_IMU ≤ data.length then
      [.imuUpdate "/ring/accel_x" ((parseInt16Le data 0 : ℚ) * IMU_SCALE),
       .imuUpdate "/ring/accel_y" ((parseInt16Le data 2 : ℚ) * IMU_SCALE),
       .imuUpdate "/ring/accel_z" ((parseInt16Le data 4 : ℚ) * IMU_SCALE),
       .imuUpdate "/ring/gyro_x" ((parseInt16Le data 6 : ℚ) * IMU_SCALE),
       .imuUpdate "/ring/gyro_y" ((parseInt16Le data 8 : ℚ) * IMU_SCALE),
       .imuUpdate "/ring/gyro_z" ((parseInt16Le data 10 : ℚ) * IMU_SCALE)]
    else []
  if data.length ≤ IDX_BYTE_12 then
    some (origEv ++ imuEvs ++ [.skipPointer data.length])
  else
    match data.get? 10, data.get? 11, data.get? 12 with
    | some x, some y, some p =>
        some (origEv ++ imuEvs ++
          [.pointerUpdate "/ring/X" x, .pointerUpdate "/ring/Y" y,
           .pointerUpdate "/ring/press" p])
    | _, _, _ => none

/-! ### Device discovery target selection -/

/-- Which lookup `find_hid_device` performs. -/
inductive LookupMode where
  | byAddress
  | byName
  deriving Repr, DecidableEq

/-- `find_hid_device` branch selection (lines 195-203):
`if name_or_address and len(name_or_address) == 17 and ":" in name_or_address`
then find by address, else find by name.  `none` models Python `None`; the
empty string is falsy, so both fall to the name branch. -/
def findDeviceMode (nameOrAddress : Option String) : LookupMode :=
  match nameOrAddress with
  | some s =>
      if s != "" && s.length == 17 && containsChar s ':' then .byAddress
      else .byName
  | none => .byName

/-- `run_hid_client` line 231:
`target = address_or_name if address_or_name else DEFAULT_DEVICE_ADDRESS`. -/
def targetOf (addressOrName : Option String) : String :=
  match addressOrName with
  | some s => if s != "" then s else DEFAULT_DEVICE_ADDRESS
  | none => DEFAULT_DEVICE_ADDRESS

end RingBLE

namespace RingBLE

/-! ## Helper lemmas -/

lemma batteryReportStep_state (last : Option Nat) (v : Nat) :
    (batteryReportStep last v).1 = some v := by
  unfold batteryReportStep
  split
  · rfl
  · next h =>
      simp only [ne_eq, not_not] at h
      exact h.symm

lemma batteryReportStep_self (v : Nat) : batteryReportStep (some v) v = (some v, []) := by
  simp [batteryReportStep]

lemma batteryReportStep_len (last : Option Nat) (v : Nat) :
    (batteryReportStep last v).2.length ≤ 1 := by
  unfold batteryReportStep
  split <;> simp

lemma foldReports_const_absorbed {σ α : Type} (f : σ → α → σ × List Nat)
    (s : σ) (e : α) (h : f s e = (s, [])) :
    ∀ n, foldReports f s (List.replicate n e) = (s, []) := by
  intro n
  induction n with
  | zero => rfl
  | succ m ih => simp [List.replicate_succ, foldReports, h, ih]

lemma foldReports_replicate_le_one {σ α : Type} (f : σ → α → σ × List Nat)
    (habs : ∀ s e, f (f s e).1 e = ((f s e).1, []))
    (hlen : ∀ s e, (f s e).2.length ≤ 1) :
    ∀ (s : σ) (e : α) (n : Nat),
      ((foldReports f s (List.replicate n e)).2).length ≤ 1 := by
  intro s e n
  cases n with
  | zero => simp [foldReports]
  | succ m =>
      rw [List.replicate_succ]
      show ((foldReports f s (e :: List.replicate m e)).2).length ≤ 1
      rw [show foldReports f s (e :: List.replicate m e)
            = ((foldReports f (f s e).1 (List.replicate m e)).1,
               (f s e).2 ++ (foldReports f (f s e).1 (List.replicate m e)).2) from rfl]
      rw [foldReports_const_absorbed f (f s e).1 e (habs s e) m]
      simpa using hlen s e

end RingBLE

namespace RingBLE

lemma pollStep_absorb (last : Option Nat) (rd : Option (List Nat)) :
    pollStep (pollStep last rd).1 rd = ((pollStep last rd).1, []) := by
  cases h : readBatteryLevel rd with
  | none => simp [pollStep, batteryPollHandle, h]
  | some l =>
      have hs : (pollStep last rd).1 = some l := by
        simp [pollStep, batteryPollHandle, h, batteryReportStep_state]
      rw [hs]
      simp [pollStep, batteryPollHandle, h, batteryReportStep_self]

lemma pollStep_len (last : Option Nat) (rd : Option (List Nat)) :
    (pollStep last rd).2.length ≤ 1 := by
  cases h : readBatteryLevel rd with
  | none => simp [pollStep, batteryPollHandle, h]
  | some l => simp [pollStep, batteryPollHandle, h, batteryReportStep_len]

lemma kaStepB_eq_empty (lb : Bool) (last : Option Nat) :
    ∀ d, (d = none ∨ d = some []) → kaStepB lb last d = (last, []) := by
  rintro d (rfl | rfl) <;> simp [kaStepB, keepaliveHandle]

lemma kaStepB_cons (lb : Bool) (last : Option Nat) (v : Nat) (ds : List Nat) :
    kaStepB lb last (some (v :: ds)) = batteryReportStep last (clampBattery v) := by
  have h1 : keepaliveHandle (some last) lb (some (v :: ds))
      = (some (batteryReportStep last (clampBattery v)).1,
         (batteryReportStep last (clampBattery v)).2) := by
    simp [keepaliveHandle]
  simp [kaStepB, h1]

lemma kaStepB_absorb (lb : Bool) (last : Option Nat) (d : Option (List Nat)) :
    kaStepB lb (kaStepB lb last d).1 d = ((kaStepB lb last d).1, []) := by
  match d with
  | none => simp [kaStepB_eq_empty lb _ none (Or.inl rfl)]
  | some [] => simp [kaStepB_eq_empty lb _ (some []) (Or.inr rfl)]
  | some (v :: ds) =>
      rw [kaStepB_cons, kaStepB_cons, batteryReportStep_state,
        batteryReportStep_self]

lemma kaStepB_len (lb : Bool) (last : Option Nat) (d : Option (List Nat)) :
    (kaStepB lb last d).2.length ≤ 1 := by
  match d with
  | none => simp [kaStepB_eq_empty lb _ none (Or.inl rfl)]
  | some [] => simp [kaStepB_eq_empty lb _ (some []) (Or.inr rfl)]
  | some (v :: ds) => rw [kaStepB_cons]; exact batteryReportStep_len _ _

lemma batteryNotificationHandle_cons (last : Option Nat) (v : Nat) (ds : List Nat) :
    batteryNotificationHandle last (v :: ds)
      = batteryReportStep last (clampBattery v) := by
  simp [batteryNotificationHandle]

lemma batteryNotificationHandle_absorb (last : Option Nat) (data : List Nat) :
    batteryNotificationHandle (batteryNotificationHandle last data).1 data
      = ((batteryNotificationHandle last data).1, []) := by
  match data with
  | [] => simp [batteryNotificationHandle]
  | v :: ds =>
      rw [batteryNotificationHandle_cons, batteryNotificationHandle_cons,
        batteryReportStep_state, batteryReportStep_self]

lemma batteryNotificationHandle_len (last : Option Nat) (data : List Nat) :
    (batteryNotificationHandle last data).2.length ≤ 1 := by
  match data with
  | [] => simp [batteryNotificationHandle]
  | v :: ds => rw [batteryNotificationHandle_cons]; exact batteryReportStep_len _ _

/-- C7: battery change reporting is idempotent against the shared last-seen
value in all three sites.  For the battery poll loop, the keepalive loop in
battery role, and the battery notification handler: any number of repeated
iterations on the same read result produce at most one report, and a single
read carrying a value different from the last observed value produces
exactly one report with the new (clamped) value. -/
theorem battery_reporting_idempotent :
    (∀ (last : Option Nat) (rd : Option (List Nat)) (n : Nat),
      ((foldReports pollStep last (List.replicate n rd)).2).length ≤ 1)
    ∧ (∀ (last : Option Nat) (l : Nat), some l ≠ last →
        batteryPollHandle last (some l) = (some l, [l]))
    ∧ (∀ (lb : Bool) (last : Option Nat) (rd : Option (List Nat)) (n : Nat),
        ((foldReports (kaStepB lb) last (List.replicate n rd)).2).length ≤ 1)
    ∧ (∀ (lb : Bool) (last : Option Nat) (v : Nat) (ds : List Nat),
        some (clampBattery v) ≠ last →
        keepaliveHandle (some last) lb (some (v :: ds))
          = (some (some (clampBattery v)), [clampBattery v]))
    ∧ (∀ (last : Option Nat) (data : List Nat) (n : Nat),
        ((foldReports batteryNotificationHandle last (List.replicate n data)).2).length ≤ 1)
    ∧ (∀ (last : Option Nat) (v : Nat) (ds : List Nat),
        some (clampBattery v) ≠ last →
        batteryNotificationHandle last (v :: ds)
          = (some (clampBattery v), [clampBattery v])) := by
  refine ⟨?_, ?_, ?_, ?_, ?_, ?_⟩
  · intro last rd n
    exact foldReports_replicate_le_one pollStep pollStep_absorb pollStep_len last rd n
  · intro last l h
    simp [batteryPollHandle, batteryReportStep, h]
  · intro lb last rd n
    exact foldReports_replicate_le_one (kaStepB lb) (kaStepB_absorb lb)
      (kaStepB_len lb) last rd n
  · intro lb last v ds h
    simp [keepaliveHandle, batteryReportStep, h]
  · intro last data n
    exact foldReports_replicate_le_one batteryNotificationHandle
      batteryNotificationHandle_absorb batteryNotificationHandle_len last data n
  · intro last v ds h
    rw [batteryNotificationHandle_cons]
    simp [batteryReportStep, h]

/-- C7 witness: a fresh battery value (50 after none) produces exactly one
report with the new value. -/
theorem battery_reporting_idempotent_witness :
    batteryPollHandle none (some 50) = (some 50, [50]) :=
  battery_reporting_idempotent.2.1 none 50 (by decide)

end RingBLE

namespace RingBLE

/-- C10: a target string is looked up by link-layer address iff it has
exactly 17 characters and contains a colon; any other non-empty string is
looked up as a device name; Python `None` also falls to the name lookup;
with no caller-supplied target the hard-coded default address is used, and
that default is then looked up by address. -/
theorem discovery_target_selection :
    (∀ s : String,
      (findDeviceMode (some s) = .byAddress
        ↔ (s.length = 17 ∧ containsChar s ':' = true))
      ∧ (¬(s.length = 17 ∧ containsChar s ':' = true) →
          findDeviceMode (some s) = .byName))
    ∧ findDeviceMode none = .byName
    ∧ targetOf none = DEFAULT_DEVICE_ADDRESS
    ∧ findDeviceMode (some (targetOf none)) = .byAddress := by
  refine ⟨fun s => ⟨?_, ?_⟩, rfl, rfl, by decide⟩
  · rw [show findDeviceMode (some s)
        = (if s != "" && s.length == 17 && containsChar s ':' then LookupMode.byAddress
           else LookupMode.byName) from rfl]
    split
    next hcond =>
      simp only [Bool.and_eq_true, beq_iff_eq] at hcond
      exact ⟨fun _ => ⟨hcond.1.2, hcond.2⟩, fun _ => rfl⟩
    next hcond =>
      constructor
      · intro h; exact LookupMode.noConfusion h
      · rintro ⟨h17, hc⟩
        exfalso; apply hcond
        have hne : (s != "") = true := by
          have h2 : s ≠ "" := fun he => by subst he; simp at h17
          simpa using h2
        simp [hne, h17, hc]
  · intro hn
    rw [show findDeviceMode (some s)
        = (if s != "" && s.length == 17 && containsChar s ':' then LookupMode.byAddress
           else LookupMode.byName) from rfl]
    split
    next hcond =>
      exfalso; apply hn
      simp only [Bool.and_eq_true, beq_iff_eq] at hcond
      exact ⟨hcond.1.2, hcond.2⟩
    next => rfl

/-- C10 witness: a name-like target string is looked up by name. -/
theorem discovery_target_selection_witness :
    findDeviceMode (some "My Ring") = .byName :=
  (discovery_target_selection.1 "My Ring").2 (by decide)

/-! ### C1 concrete configuration -/

/-- A readable+notifiable vendor characteristic (0xFFF1). -/
def exVendorChar : GChar :=
  ⟨"0000fff1-0000-1000-8000-00805f9b34fb", 3, ["read", "notify"], []⟩

/-- A vendor service (0xFFF0) holding `exVendorChar`. -/
def exVendorService : GService :=
  ⟨"0000fff0-0000-1000-8000-00805f9b34fb", 2, [exVendorChar]⟩

/-- A readable (non-notifiable) standard battery-level characteristic. -/
def exBatteryChar : GChar := ⟨BATTERY_LEVEL_CHAR_UUID, 11, ["read"], []⟩

/-- A standard battery service holding `exBatteryChar`. -/
def exBatteryService : GService := ⟨BATTERY_SERVICE_UUID, 10, [exBatteryChar]⟩

/-- Tree with a vendor service listed before a battery service. -/
def exTreeC1 : List GService := [exVendorService, exBatteryService]

/-- C1 counterexample: with keepalive mode "vendor" on `exTreeC1`, the
characteristic chosen for keepalive reads is the vendor characteristic
0xFFF1, not the battery-level characteristic — yet because a battery
characteristic exists, `run_hid_client` passes the shared `battery_state`
dict to the keepalive loop, and a keepalive read returning byte 55 on the
vendor characteristic updates `BatteryState` to 55 and prints a battery
report.  This refutes the claim that a keepalive read result is interpreted
as a battery percentage only when the chosen characteristic is the
battery-level characteristic. -/
theorem keepalive_battery_misattribution_cex :
    pickKeepaliveChar exTreeC1 (findBatteryChar exTreeC1) "vendor" = some exVendorChar
    ∧ findBatteryChar exTreeC1 = some exBatteryChar
    ∧ exVendorChar.uuid ≠ exBatteryChar.uuid
    ∧ keepaliveHandle (keepaliveBatteryStateArg exTreeC1 (some 40))
        (logBatteryOnKeepalive exTreeC1 "vendor") (some [55])
      = (some (some 55), [55]) :=
  ⟨by decide, by decide, by decide, by decide⟩

/-- C1 amended: the keepalive read result is interpreted as a battery
percentage exactly when a battery-level characteristic was found in the
tree (the wiring then passes the shared `battery_state`), regardless of
which characteristic was chosen for keepalive reads; when no battery
characteristic exists, the read result is never interpreted as a battery
value (the `log_battery` fallback is also false then). -/
theorem keepalive_battery_interpretation_amended :
    ∀ (tree : List GService) (mode : String) (last : Option Nat) (d : List Nat),
      (findBatteryChar tree = none →
        keepaliveHandle (keepaliveBatteryStateArg tree last)
          (logBatteryOnKeepalive tree mode) (some d) = (none, []))
      ∧ (findBatteryChar tree ≠ none → ∀ v ds, d = v :: ds →
          keepaliveHandle (keepaliveBatteryStateArg tree last)
            (logBatteryOnKeepalive tree mode) (some d)
          = (some (batteryReportStep last (clampBattery v)).1,
             (batteryReportStep last (clampBattery v)).2)) := by
  intro tree mode last d
  constructor
  · intro h
    have hs : keepaliveBatteryStateArg tree last = none := by
      simp [keepaliveBatteryStateArg, h]
    have hl : logBatteryOnKeepalive tree mode = false := by
      simp [logBatteryOnKeepalive, h]
    rw [hs, hl]
    unfold keepaliveHandle
    split <;> simp
  · intro h v ds hd
    subst hd
    have hs : keepaliveBatteryStateArg tree last = some last := by
      cases hb : findBatteryChar tree with
      | none => exact absurd hb h
      | some b => simp [keepaliveBatteryStateArg, hb]
    rw [hs]
    simp [keepaliveHandle]

/-- C1 amended witness: on a tree with no battery characteristic
(`exVendorService` only), a keepalive read result is never interpreted as
a battery value. -/
theorem keepalive_battery_interpretation_witness :
    keepaliveHandle (keepaliveBatteryStateArg [exVendorService] (some 40))
      (logBatteryOnKeepalive [exVendorService] "battery") (some [55])
      = (none, []) :=
  (keepalive_battery_interpretation_amended [exVendorService] "battery"
    (some 40) [55]).1 (by decide)

end RingBLE

namespace RingBLE

lemma loopTrace_read_alive (alive : Nat → Bool) (ivPos : Bool) :
    ∀ (fuel t0 t : Nat), LoopEv.readAt t ∈ loopTrace alive ivPos fuel t0 →
      alive t = true ∧ 1 ≤ t ∧ alive (t - 1) = true := by
  intro fuel
  induction fuel with
  | zero =>
      intro t0 t h
      simp [loopTrace] at h
  | succ n ih =>
      intro t0 t h
      rw [loopTrace] at h
      by_cases h0 : alive t0 = true
      · rw [if_pos h0] at h
        by_cases hiv : ivPos = true
        · rw [if_pos hiv] at h
          by_cases h1 : alive (t0 + 1) = true
          · rw [if_pos h1] at h
            simp only [List.mem_cons] at h
            rcases h with h | h | h | h | h
            · exact absurd h (by simp)
            · exact absurd h (by simp)
            · exact absurd h (by simp)
            · cases h
              exact ⟨h1, by omega, by simpa using h0⟩
            · exact ih (t0 + 2) t h
          · rw [if_neg h1] at h
            simp at h
        · rw [if_neg hiv] at h
          simp at h
      · rw [if_neg h0] at h
        simp at h

/-- C6: neither background loop ever issues a read in a state where the
connection has been marked disconnected: every read in the keepalive-loop
trace and in the battery-poll-loop trace happens at a sample time `t` whose
post-sleep `is_connected()` check (sampled after the sleep, at `t`) is
true, with the top-of-iteration check (sampled at `t - 1`) also true —
even when the disconnection occurs while the sleep is in progress, the
re-check prevents the read. -/
theorem loops_never_read_after_disconnect :
    ∀ (alive : Nat → Bool) (ivPos : Bool) (fuel t0 t : Nat),
      (LoopEv.readAt t ∈ keepaliveLoopTrace alive ivPos fuel t0 →
        alive t = true ∧ 1 ≤ t ∧ alive (t - 1) = true)
      ∧ (LoopEv.readAt t ∈ batteryPollLoopTrace alive ivPos fuel t0 →
        alive t = true ∧ 1 ≤ t ∧ alive (t - 1) = true) := by
  intro alive ivPos fuel t0 t
  exact ⟨loopTrace_read_alive alive ivPos fuel t0 t,
         loopTrace_read_alive alive ivPos fuel t0 t⟩

/-- C6 witness: in a run where the connection stays alive, the read the
keepalive loop issues at sample time 1 is covered by the theorem. -/
theorem loops_never_read_after_disconnect_witness :
    (fun _ : Nat => true) 1 = true ∧ 1 ≤ 1 ∧ (fun _ : Nat => true) (1 - 1) = true :=
  (loops_never_read_after_disconnect (fun _ => true) true 1 0 1).1 (by decide)

end RingBLE

namespace RingBLE

/-- C5: for both exit paths of the idle wait (disconnect detected by the
`while` condition, or cancellation caught by the `except`) and any
combination of started background tasks, the session controller tail runs
the teardown before returning: every started task is cancelled and awaited,
and the return action comes strictly after the whole teardown. -/
theorem teardown_joins_all_tasks :
    ∀ (p : ExitPath) (ka bp : Bool),
      sessionTailTrace p ka bp = teardownActions ka bp ++ [TAct.ret]
      ∧ (ka = true → TAct.cancelKeepalive ∈ teardownActions ka bp
            ∧ TAct.awaitKeepalive ∈ teardownActions ka bp)
      ∧ (bp = true → TAct.cancelBatteryPoll ∈ teardownActions ka bp
            ∧ TAct.awaitBatteryPoll ∈ teardownActions ka bp)
      ∧ TAct.ret ∉ teardownActions ka bp := by
  intro p ka bp
  cases p <;> cases ka <;> cases bp <;> decide

/-- C5 witness: with both tasks started and a cancellation-triggered exit,
the keepalive task is cancelled and awaited. -/
theorem teardown_joins_all_tasks_witness :
    TAct.cancelKeepalive ∈ teardownActions true true
    ∧ TAct.awaitKeepalive ∈ teardownActions true true :=
  (teardown_joins_all_tasks .cancelledWait true true).2.1 rfl

/-- C8 counterexample: an exception matching none of the supervisor's
`except` clauses — such as the `ValueError` raised by `bytes.fromhex` on
an invalid configured hex payload — propagates out of the `while True`
loop, exiting it without a retry, although it is not a cooperative
cancellation.  This refutes the claim that a cooperative cancellation is
the only path that exits the loop without retrying. -/
theorem supervisor_exit_not_only_cancellation_cex :
    supervisorStep .otherError = .exitRaise
    ∧ SessionOutcome.otherError ≠ SessionOutcome.cancelledError := by
  decide

/-- C8 amended: the supervisor sleeps `reconnectDelay` and retries with the
unchanged target exactly after a normal return (which covers
device-not-found and normal session end) or one of the four caught
transport error types (`BleakError`, `asyncio.TimeoutError`, `OSError`,
`ConnectionError`); a cooperative cancellation, a `KeyboardInterrupt`, and
any other uncaught exception exit the loop without retrying; while only
retryable outcomes occur the loop runs forever, and every call receives
the identical target parameter. -/
theorem supervisor_retry_policy_amended :
    (∀ o : SessionOutcome, supervisorStep o = .retryAfterDelay ↔
        (o = .normalReturn ∨ o = .bleakError ∨ o = .timeoutError ∨
         o = .osError ∨ o = .connectionError))
    ∧ (∀ o : SessionOutcome, supervisorStep o = .exitRaise ↔
        (o = .cancelledError ∨ o = .keyboardInterrupt ∨ o = .otherError))
    ∧ (∀ outcomes : Nat → SessionOutcome,
        (∀ k, supervisorStep (outcomes k) = .retryAfterDelay) →
        ∀ n, attemptsSession outcomes n = true)
    ∧ (∀ (a : Option String) (n : Nat), supervisorTarget a n = a) := by
  refine ⟨by intro o; cases o <;> decide, by intro o; cases o <;> decide, ?_,
    fun a n => rfl⟩
  intro outcomes h n
  induction n with
  | zero => rfl
  | succ m ih => simp [attemptsSession, ih, h m]

/-- C8 amended witness: a run whose sessions all end normally (e.g. the
device is never found) is still being retried at the third attempt. -/
theorem supervisor_retry_policy_witness :
    attemptsSession (fun _ => SessionOutcome.normalReturn) 2 = true :=
  supervisor_retry_policy_amended.2.2.1 (fun _ => .normalReturn)
    (fun _ => rfl) 2

end RingBLE

namespace RingBLE

/-- C9: for every notification payload, the bridge wrapper completes
without raising (`wrapperRun` is `some`); the internal handler is invoked
first; IMU fields are parsed and published only when the payload has at
least 12 bytes; whenever the payload length is at most 12 the pointer
update is skipped without raising; in particular a length-3 payload
produces only the internal handler call followed by the skip, leaving the
pointer nodes unchanged. -/
theorem wrapper_tolerates_short_payloads :
    (∀ data : List Nat, (wrapperRun data).isSome = true)
    ∧ (∀ data evs, wrapperRun data = some evs →
        evs.head? = some (.origHandlerCall data.length))
    ∧ (∀ data evs, wrapperRun data = some evs → data.length < 12 →
        ∀ path v, WrapEv.imuUpdate path v ∉ evs)
    ∧ (∀ data evs, wrapperRun data = some evs → data.length ≤ 12 →
        (∀ path v, WrapEv.pointerUpdate path v ∉ evs)
        ∧ WrapEv.skipPointer data.length ∈ evs)
    ∧ wrapperRun [1, 2, 3] = some [.origHandlerCall 3, .skipPointer 3] := by
  have hlong : ∀ data : List Nat, ¬ data.length ≤ 12 →
      ∃ x y p, data.get? 10 = some x ∧ data.get? 11 = some y ∧
        data.get? 12 = some p := by
    intro data hlen
    have h10 : data.get? 10 ≠ none := fun hnone => by
      rw [List.get?_eq_none] at hnone; omega
    have h11 : data.get? 11 ≠ none := fun hnone => by
      rw [List.get?_eq_none] at hnone; omega
    have h12 : data.get? 12 ≠ none := fun hnone => by
      rw [List.get?_eq_none] at hnone; omega
    cases hx : data.get? 10 with
    | none => exact absurd hx h10
    | some x =>
      cases hy : data.get? 11 with
      | none => exact absurd hy h11
      | some y =>
        cases hp : data.get? 12 with
        | none => exact absurd hp h12
        | some p => exact ⟨x, y, p, rfl, rfl, rfl⟩
  refine ⟨?_, ?_, ?_, ?_, by decide⟩
  · intro data
    unfold wrapperRun
    by_cases hlen : data.length ≤ IDX_BYTE_12
    · rw [if_pos hlen]; rfl
    · rw [if_neg hlen]
      obtain ⟨x, y, p, hx, hy, hp⟩ := hlong data hlen
      rw [hx, hy, hp]
      rfl
  · intro data evs hev
    unfold wrapperRun at hev
    by_cases hlen : data.length ≤ IDX_BYTE_12
    · rw [if_pos hlen] at hev
      cases hev
      rfl
    · rw [if_neg hlen] at hev
      obtain ⟨x, y, p, hx, hy, hp⟩ := hlong data hlen
      rw [hx, hy, hp] at hev
      cases hev
      rfl
  · intro data evs hev hlt path v
    unfold wrapperRun at hev
    have hc : ¬ (0 < REPORT_MIN_LEN_FOR_IMU && REPORT_MIN_LEN_FOR_IMU ≤ data.length) = true := by
      simp only [REPORT_MIN_LEN_FOR_IMU, Bool.and_eq_true, decide_eq_true_eq]
      omega
    rw [if_neg hc] at hev
    have hlen : data.length ≤ IDX_BYTE_12 := by
      simp only [IDX_BYTE_12]; omega
    rw [if_pos hlen] at hev
    cases hev
    simp
  · intro data evs hev hle
    unfold wrapperRun at hev
    have hlen : data.length ≤ IDX_BYTE_12 := by simpa [IDX_BYTE_12] using hle
    rw [if_pos hlen] at hev
    by_cases hc : (0 < REPORT_MIN_LEN_FOR_IMU && REPORT_MIN_LEN_FOR_IMU ≤ data.length) = true
    · rw [if_pos hc] at hev
      cases hev
      constructor
      · intro path v
        simp
      · simp
    · rw [if_neg hc] at hev
      cases hev
      constructor
      · intro path v
        simp
      · simp

/-- C9 witness: a length-3 payload is handled without raising, the internal
handler runs first, and the pointer update is skipped. -/
theorem wrapper_tolerates_short_payloads_witness :
    (∀ path v, WrapEv.pointerUpdate path v ∉
        [WrapEv.origHandlerCall 3, WrapEv.skipPointer 3])
    ∧ WrapEv.skipPointer 3 ∈ [WrapEv.origHandlerCall 3, WrapEv.skipPointer 3] :=
  wrapper_tolerates_short_payloads.2.2.2.1 [1, 2, 3]
    [WrapEv.origHandlerCall 3, WrapEv.skipPointer 3] (by rfl) (by decide)

end RingBLE

namespace RingBLE

lemma hidSubReportOps_shape (hid : GService) :
    hidSubReportOps hid = [] ∨ ∃ u, hidSubReportOps hid = [OpDesc.subReport u] := by
  unfold hidSubReportOps
  split
  · split
    · next rc _ _ => exact Or.inr ⟨rc.uuid, rfl⟩
    · exact Or.inl rfl
  · exact Or.inl rfl

lemma hidCpWriteOps_shape (hid : GService) :
    hidCpWriteOps hid = []
    ∨ ∃ u r, hidCpWriteOps hid = [OpDesc.writeControlPoint u r] := by
  unfold hidCpWriteOps
  split
  · split
    · next cp _ _ => exact Or.inr ⟨cp.uuid, cp.props.contains "write", rfl⟩
    · exact Or.inl rfl
  · exact Or.inl rfl

lemma sessionOps_eq_hid {tree : List GService} {hid : GService}
    (oracle : Nat → Bool) (cfg : SessionCfg)
    (hfs : findHidService tree = some hid) :
    sessionOps oracle tree cfg = hidPathOps oracle (dumpOps cfg) hid tree := by
  unfold sessionOps
  rw [hfs]

lemma sessionOps_eq_vendor {tree : List GService}
    (oracle : Nat → Bool) (cfg : SessionCfg)
    (hfs : findHidService tree = none) :
    sessionOps oracle tree cfg = .ok (vendorPathOps tree cfg) := by
  unfold sessionOps
  rw [hfs]

/-- C2 amended: after a successful connect, every transport operation
except the HID report subscription and the control-point Exit-Suspend
write is wrapped in its own try/except, so its failure is logged and the
session continues; an abort of the post-connect phase can only happen at
one of those two unguarded operations (the aborting operation is the last
one attempted).  On the vendor path (no HID service) no operation at all
is unguarded: the attempted operations and the outcome are entirely
independent of which operations fail. -/
theorem session_abort_only_unguarded_amended :
    (∀ (oracle : Nat → Bool) (tree : List GService) (cfg : SessionCfg),
      (∃ ops, sessionOps oracle tree cfg = .ok ops)
      ∨ (∃ ops u, sessionOps oracle tree cfg = .error ops ∧
          (ops.getLast? = some (.subReport u)
           ∨ ∃ r, ops.getLast? = some (.writeControlPoint u r))))
    ∧ (∀ (oracle oracle' : Nat → Bool) (tree : List GService) (cfg : SessionCfg),
        findHidService tree = none →
        sessionOps oracle tree cfg = sessionOps oracle' tree cfg) := by
  constructor
  · intro oracle tree cfg
    cases hfs : findHidService tree with
    | none => exact Or.inl ⟨_, sessionOps_eq_vendor oracle cfg hfs⟩
    | some hid =>
        rw [sessionOps_eq_hid oracle cfg hfs]
        simp only [hidPathOps]
        by_cases hc1 : (!(hidSubReportOps hid).isEmpty
            && !oracle (dumpOps cfg).length) = true
        · rw [if_pos hc1]
          right
          simp only [Bool.and_eq_true, Bool.not_eq_true'] at hc1
          rcases hidSubReportOps_shape hid with he | ⟨u, hu⟩
          · rw [he] at hc1
            simp at hc1
          · refine ⟨_, u, rfl, Or.inl ?_⟩
            rw [hu]
            simp
        · rw [if_neg hc1]
          by_cases hc2 : (!(hidCpWriteOps hid).isEmpty
              && !oracle (dumpOps cfg ++ hidSubReportOps hid).length) = true
          · rw [if_pos hc2]
            right
            simp only [Bool.and_eq_true, Bool.not_eq_true'] at hc2
            rcases hidCpWriteOps_shape hid with he | ⟨u, r, hu⟩
            · rw [he] at hc2
              simp at hc2
            · refine ⟨_, u, rfl, Or.inr ⟨r, ?_⟩⟩
              rw [hu]
              simp
          · rw [if_neg hc2]
            exact Or.inl ⟨_, rfl⟩
  · intro oracle oracle' tree cfg hfs
    rw [sessionOps_eq_vendor oracle cfg hfs, sessionOps_eq_vendor oracle' cfg hfs]

/-- C2 amended witness: on a tree with no HID service (here the empty
tree), the session outcome is identical whether every transport operation
succeeds or every one fails. -/
theorem session_abort_only_unguarded_witness :
    sessionOps (fun _ => true) [] ⟨false, none, none⟩
      = sessionOps (fun _ => false) [] ⟨false, none, none⟩ :=
  session_abort_only_unguarded_amended.2 (fun _ => true) (fun _ => false)
    [] ⟨false, none, none⟩ (by rfl)

/-- A notifiable HID report characteristic. -/
def exReportChar : GChar := ⟨HID_REPORT_UUID, 2, ["read", "notify"], []⟩

/-- An HID service holding only the report characteristic. -/
def exHidService : GService := ⟨HID_SERVICE_UUID, 1, [exReportChar]⟩

/-- Tree whose only service is the HID service. -/
def exTreeC2 : List GService := [exHidService]

/-- Configuration with no dump and no vendor payloads. -/
def cfg0 : SessionCfg := ⟨false, none, none⟩

/-- C2 counterexample: on an HID tree, when the very first post-connect
transport operation — subscribing the report characteristic — fails, the
session aborts (`.error`) instead of logging and continuing.  This refutes
the claim that a failure of the report subscription (a subscribe performed
after a successful connect and before the idle wait) leaves the session
running. -/
theorem session_abort_only_unguarded_cex :
    sessionOps (fun _ => false) exTreeC2 cfg0
      = .error [OpDesc.subReport HID_REPORT_UUID] := by
  rfl

end RingBLE

namespace RingBLE

/-- Whether `op` is a subscription attempt (`start_notify`, any handler)
for uuid `u`. -/
def isSubOf (u : String) (op : OpDesc) : Bool :=
  match op with
  | .subChar v => v == u
  | .subBattery v => v == u
  | .subReport v => v == u
  | _ => false

lemma subAttempts_eq_filter (ops : List OpDesc) (u : String) :
    subAttempts ops u = (ops.filter (isSubOf u)).length := by
  rfl

lemma subAttempts_append (a b : List OpDesc) (u : String) :
    subAttempts (a ++ b) u = subAttempts a u + subAttempts b u := by
  simp [subAttempts_eq_filter, List.filter_append]

lemma subAttempts_zero (ops : List OpDesc) (u : String)
    (h : ∀ op ∈ ops, isSubOf u op = false) : subAttempts ops u = 0 := by
  rw [subAttempts_eq_filter]
  have : ops.filter (isSubOf u) = [] := by
    rw [List.filter_eq_nil_iff]
    intro a ha
    simp [h a ha]
  rw [this]
  rfl

lemma subAttempts_dumpOps (cfg : SessionCfg) (u : String) :
    subAttempts (dumpOps cfg) u = 0 := by
  apply subAttempts_zero
  intro op hop
  unfold dumpOps at hop
  split at hop
  · simp only [List.mem_singleton] at hop
    subst hop
    rfl
  · simp at hop

lemma subAttempts_vendorWriteOpsFor (p? : Option (List Nat)) (un : String)
    (tree : List GService) (u : String) :
    subAttempts (vendorWriteOpsFor p? un tree) u = 0 := by
  apply subAttempts_zero
  intro op hop
  unfold vendorWriteOpsFor at hop
  match p? with
  | none => simp at hop
  | some payload =>
      rw [List.mem_flatMap] at hop
      obtain ⟨s, _, hop⟩ := hop
      cases hfind : s.characteristics.find? (fun c =>
          normUuid c.uuid == un && isWritableVendor c) with
      | none =>
          rw [hfind] at hop
          simp at hop
      | some c =>
          rw [hfind] at hop
          simp only [List.mem_singleton] at hop
          subst hop
          rfl

lemma subAttempts_vendorReadOps (tree : List GService) (u : String) :
    subAttempts (vendorReadOps tree) u = 0 := by
  apply subAttempts_zero
  intro op hop
  unfold vendorReadOps at hop
  rw [List.mem_flatMap] at hop
  obtain ⟨s, _, hop⟩ := hop
  rw [List.mem_map] at hop
  obtain ⟨c, _, rfl⟩ := hop
  rfl

lemma batteryOps_eq_some {tree : List GService} {b : GChar}
    (hb : findBatteryChar tree = some b) :
    batteryOps tree
      = [OpDesc.readChar b.uuid]
        ++ (if isNotifiable b then [OpDesc.subBattery b.uuid] else []) := by
  unfold batteryOps
  rw [hb]

lemma batteryOps_eq_none {tree : List GService}
    (hb : findBatteryChar tree = none) :
    batteryOps tree
      = (match tree.find? isVendorService with
         | some s =>
            (match s.characteristics.find? isReadable with
             | some c => [OpDesc.readChar c.uuid]
             | none => [])
         | none => []) := by
  unfold batteryOps
  rw [hb]

lemma subAttempts_batteryOps_some {tree : List GService} {b : GChar}
    (hb : findBatteryChar tree = some b) (u : String) :
    subAttempts (batteryOps tree) u
      = if isNotifiable b && b.uuid == u then 1 else 0 := by
  rw [batteryOps_eq_some hb, subAttempts_append]
  have h1 : subAttempts [OpDesc.readChar b.uuid] u = 0 := rfl
  rw [h1]
  by_cases hn : isNotifiable b = true
  · rw [if_pos hn]
    by_cases he : (b.uuid == u) = true
    · rw [if_pos (by simp [hn, he])]
      simp [subAttempts_eq_filter, isSubOf, he]
    · rw [if_neg (by simp [hn, he])]
      simp [subAttempts_eq_filter, isSubOf, he]
  · rw [if_neg hn]
    rw [if_neg (by simp [hn])]
    rfl

lemma subAttempts_batteryOps_none {tree : List GService}
    (hb : findBatteryChar tree = none) (u : String) :
    subAttempts (batteryOps tree) u = 0 := by
  rw [batteryOps_eq_none hb]
  apply subAttempts_zero
  intro op hop
  split at hop
  · split at hop
    · simp only [List.mem_singleton] at hop
      subst hop
      rfl
    · simp at hop
  · simp at hop

lemma vendorSubOps_eq (tree : List GService) :
    vendorSubOps tree
      = ((tree.flatMap (fun s => s.characteristics)).filter isNotifiable).map
          (fun c => OpDesc.subChar c.uuid) := by
  induction tree with
  | nil => rfl
  | cons s ss ih =>
      simp only [vendorSubOps, List.flatMap_cons, List.filter_append,
        List.map_append] at *
      rw [ih]

lemma subAttempts_map_subChar (l : List GChar) (u : String) :
    subAttempts (l.map (fun c => OpDesc.subChar c.uuid)) u
      = (l.filter (fun c => c.uuid == u)).length := by
  induction l with
  | nil => rfl
  | cons c cs ih =>
      simp only [List.map_cons, subAttempts_eq_filter, List.filter_cons] at *
      by_cases h : (c.uuid == u) = true
      · simp [isSubOf, h, ih]
      · simp [isSubOf, h, ih]

lemma filter_uuid_nil (l : List GChar) (u : String)
    (h : ∀ y ∈ l, y.uuid ≠ u) : l.filter (fun x => x.uuid == u) = [] := by
  rw [List.filter_eq_nil_iff]
  intro a ha
  simp only [beq_iff_eq]
  exact h a ha

lemma filter_uuid_length_one (p : GChar → Bool) :
    ∀ (l : List GChar) (c : GChar),
      (l.map (fun x => x.uuid)).Nodup → c ∈ l → p c = true →
      ((l.filter p).filter (fun x => x.uuid == c.uuid)).length = 1 := by
  intro l
  induction l with
  | nil =>
      intro c _ hc _
      simp at hc
  | cons x xs ih =>
      intro c hnd hc hp
      rw [List.map_cons, List.nodup_cons] at hnd
      obtain ⟨hx_not, hnd'⟩ := hnd
      rcases List.mem_cons.mp hc with rfl | hc'
      · rw [List.filter_cons, if_pos (by simpa using hp)]
        rw [List.filter_cons, if_pos (by simp)]
        have hz : ((xs.filter p).filter (fun y => y.uuid == c.uuid)) = [] := by
          apply filter_uuid_nil
          intro y hy he
          exact hx_not (he ▸ List.mem_map_of_mem (fun z => z.uuid) (List.mem_of_mem_filter hy))
        rw [hz]
        rfl
      · have hxne : (x.uuid == c.uuid) = false := by
          have : x.uuid ≠ c.uuid := by
            intro he
            exact hx_not (he ▸ List.mem_map_of_mem (fun z => z.uuid) hc')
          simpa using this
        rw [List.filter_cons]
        by_cases hpx : p x = true
        · rw [if_pos (by simpa using hpx)]
          rw [List.filter_cons, if_neg (by simp [hxne])]
          exact ih c hnd' hc' hp
        · rw [if_neg (by simpa using hpx)]
          exact ih c hnd' hc' hp

end RingBLE

namespace RingBLE

/-- C3 amended: for every GATT tree without the HID service (with pairwise
distinct characteristic uuids), every notifiable/indicatable characteristic
is subscribed exactly once by the vendor-path enumeration — except that the
battery-level characteristic, when it is readable and notifiable, receives
one ADDITIONAL subscription from the battery section (with the dedicated
battery notification handler), i.e. two subscribe attempts in total rather
than one. -/
theorem vendor_path_subscription_count_amended :
    ∀ (oracle : Nat → Bool) (tree : List GService) (cfg : SessionCfg) (c : GChar),
      findHidService tree = none →
      ((tree.flatMap (fun s => s.characteristics)).map (fun x => x.uuid)).Nodup →
      c ∈ tree.flatMap (fun s => s.characteristics) →
      isNotifiable c = true →
      ∃ ops, sessionOps oracle tree cfg = .ok ops ∧
        subAttempts ops c.uuid
          = 1 + ((findBatteryChar tree).elim 0
                  (fun b => if isNotifiable b && b.uuid == c.uuid then 1 else 0)) := by
  intro oracle tree cfg c hfs hnd hmem hn
  refine ⟨vendorPathOps tree cfg, sessionOps_eq_vendor oracle cfg hfs, ?_⟩
  unfold vendorPathOps vendorWriteOps
  simp only [subAttempts_append]
  rw [subAttempts_dumpOps, subAttempts_vendorWriteOpsFor,
    subAttempts_vendorWriteOpsFor, subAttempts_vendorReadOps]
  rw [vendorSubOps_eq, subAttempts_map_subChar,
    filter_uuid_length_one isNotifiable _ c hnd hmem hn]
  cases hb : findBatteryChar tree with
  | some b =>
      rw [subAttempts_batteryOps_some hb]
      by_cases h1 : isNotifiable b = true
      · by_cases h2 : b.uuid = c.uuid
        · simp [h1, h2]
        · simp [h1, h2]
      · simp [h1]
  | none =>
      rw [subAttempts_batteryOps_none hb]
      simp

/-- C3 amended witness: on `exTreeC1` (vendor characteristic 0xFFF1
notifiable, battery characteristic readable but not notifiable) the vendor
characteristic is subscribed exactly once. -/
theorem vendor_path_subscription_count_witness :
    ∃ ops, sessionOps (fun _ => true) exTreeC1 cfg0 = .ok ops ∧
      subAttempts ops exVendorChar.uuid
        = 1 + ((findBatteryChar exTreeC1).elim 0
                (fun b => if isNotifiable b && b.uuid == exVendorChar.uuid
                          then 1 else 0)) :=
  vendor_path_subscription_count_amended (fun _ => true) exTreeC1 cfg0
    exVendorChar (by rfl) (by decide) (by decide) (by decide)

/-- A readable AND notifiable standard battery-level characteristic. -/
def exBatteryCharNotify : GChar := ⟨BATTERY_LEVEL_CHAR_UUID, 2, ["read", "notify"], []⟩

/-- Tree whose only service is a battery service with a notifiable
battery-level characteristic (no HID service). -/
def exTreeC3 : List GService := [⟨BATTERY_SERVICE_UUID, 1, [exBatteryCharNotify]⟩]

/-- C3 counterexample: on a HID-less tree whose battery-level
characteristic is notifiable, the session issues TWO subscribe attempts for
that characteristic — one from the vendor-path enumeration (generic
handler) and one from the battery section (battery handler) — refuting the
claim that every notifiable characteristic, including the battery-level
characteristic, is subscribed exactly once. -/
theorem vendor_path_subscription_count_cex :
    findHidService exTreeC3 = none
    ∧ isNotifiable exBatteryCharNotify = true
    ∧ sessionOps (fun _ => true) exTreeC3 cfg0
        = .ok [OpDesc.subChar BATTERY_LEVEL_CHAR_UUID,
               OpDesc.readChar BATTERY_LEVEL_CHAR_UUID,
               OpDesc.subBattery BATTERY_LEVEL_CHAR_UUID]
    ∧ subAttempts [OpDesc.subChar BATTERY_LEVEL_CHAR_UUID,
               OpDesc.readChar BATTERY_LEVEL_CHAR_UUID,
               OpDesc.subBattery BATTERY_LEVEL_CHAR_UUID] BATTERY_LEVEL_CHAR_UUID
        = 2 :=
  ⟨rfl, by decide, by rfl, by decide⟩

end RingBLE

namespace RingBLE

/-- C4 amended: the configured vendor hex payloads are written only on the
VENDOR path — i.e. on every successful connect to a tree WITHOUT the HID
service.  There, the post-connect outcome and attempted operations are the
same for every oracle (each write sits in its own try/except, so a failure
of one write cannot prevent the other or abort the session), and for each
configured payload a write is attempted on every service's first matching
writable characteristic. -/
theorem vendor_writes_on_vendor_path_amended :
    ∀ (tree : List GService) (cfg : SessionCfg),
      findHidService tree = none →
      ∃ ops, (∀ oracle, sessionOps oracle tree cfg = .ok ops)
        ∧ (∀ p, cfg.writeAe41 = some p →
            ∀ s c, s ∈ tree →
              s.characteristics.find? (fun cc =>
                normUuid cc.uuid == normUuid VENDOR_CHAR_AE41_UUID
                  && isWritableVendor cc) = some c →
              OpDesc.writeVendor c.uuid p (c.props.contains "write") ∈ ops)
        ∧ (∀ p, cfg.writeFff2 = some p →
            ∀ s c, s ∈ tree →
              s.characteristics.find? (fun cc =>
                normUuid cc.uuid == normUuid VENDOR_CHAR_FFF2_UUID
                  && isWritableVendor cc) = some c →
              OpDesc.writeVendor c.uuid p (c.props.contains "write") ∈ ops) := by
  intro tree cfg hfs
  refine ⟨vendorPathOps tree cfg,
    fun oracle => sessionOps_eq_vendor oracle cfg hfs, ?_, ?_⟩
  · intro p hp s c hs hfind
    have hmem : OpDesc.writeVendor c.uuid p (c.props.contains "write")
        ∈ vendorWriteOpsFor cfg.writeAe41 (normUuid VENDOR_CHAR_AE41_UUID) tree := by
      rw [hp]
      unfold vendorWriteOpsFor
      rw [List.mem_flatMap]
      refine ⟨s, hs, ?_⟩
      rw [hfind]
      simp
    simp only [vendorPathOps, vendorWriteOps, List.mem_append]
    tauto
  · intro p hp s c hs hfind
    have hmem : OpDesc.writeVendor c.uuid p (c.props.contains "write")
        ∈ vendorWriteOpsFor cfg.writeFff2 (normUuid VENDOR_CHAR_FFF2_UUID) tree := by
      rw [hp]
      unfold vendorWriteOpsFor
      rw [List.mem_flatMap]
      refine ⟨s, hs, ?_⟩
      rw [hfind]
      simp
    simp only [vendorPathOps, vendorWriteOps, List.mem_append]
    tauto

/-- A write-without-response vendor command characteristic 0xAE41. -/
def exAe41Char : GChar := ⟨VENDOR_CHAR_AE41_UUID, 5, ["write-without-response"], []⟩

/-- Vendor service 0xAE40 holding `exAe41Char`. -/
def exAe40Service : GService :=
  ⟨"0000ae40-0000-1000-8000-00805f9b34fb", 4, [exAe41Char]⟩

/-- An HID service with no characteristics. -/
def exHidEmptyService : GService := ⟨HID_SERVICE_UUID, 1, []⟩

/-- Tree with the HID service present and a writable 0xAE41 characteristic
in a vendor service. -/
def exTreeC4 : List GService := [exHidEmptyService, exAe40Service]

/-- Tree with only the vendor service (no HID service). -/
def exTreeC4v : List GService := [exAe40Service]

/-- Configuration with an 0xAE41 payload (decoded hex "01"). -/
def cfgC4 : SessionCfg := ⟨false, some [1], none⟩

/-- C4 counterexample: the session connects successfully to a tree that
contains the HID service and a writable 0xAE41 characteristic, with an
0xAE41 payload configured — the post-connect phase completes without a
single operation, so the payload is NOT written on this connect.  This
refutes the claim that the payload is written on every successful connect;
the writes happen only on the vendor path (no HID service). -/
theorem vendor_writes_on_vendor_path_cex :
    cfgC4.writeAe41 = some [1]
    ∧ isWritableVendor exAe41Char = true
    ∧ normUuid exAe41Char.uuid = normUuid VENDOR_CHAR_AE41_UUID
    ∧ exAe40Service ∈ exTreeC4
    ∧ exAe41Char ∈ exAe40Service.characteristics
    ∧ sessionOps (fun _ => true) exTreeC4 cfgC4 = .ok [] :=
  ⟨rfl, by decide, by decide, by decide, by decide, by rfl⟩

/-- C4 amended witness: on the same tree without the HID service, the
configured 0xAE41 payload IS written (the write operation is attempted on
the matching writable characteristic), for every oracle. -/
theorem vendor_writes_on_vendor_path_witness :
    ∃ ops, (∀ oracle, sessionOps oracle exTreeC4v cfgC4 = Except.ok ops)
      ∧ OpDesc.writeVendor exAe41Char.uuid [1]
          (exAe41Char.props.contains "write") ∈ ops := by
  obtain ⟨ops, hok, hae, _⟩ :=
    vendor_writes_on_vendor_path_amended exTreeC4v cfgC4 (by rfl)
  exact ⟨ops, hok, hae [1] rfl exAe40Service exAe41Char (by decide) (by decide)⟩

end RingBLE
